import Mathlib

set_option linter.unusedVariables false

/-!
Verification development for the resourced daemon core
(src/resourced/src/common.rs and src/resourced/src/dbus.rs).

The shallow embedding models the three global workload-mode cells as an
explicit `DaemonState` record, and the sysfs device side effects through a
`Device` record: `eppPaths` is the list of glob matches of
`<root>/sys/devices/system/cpu/cpufreq/policy*/energy_performance_preference`,
`writeOk path value` says whether a `std::fs::write` of `value` to `path`
succeeds, `files path` is the content `std::fs::read_to_string path` returns
(`none` for a read failure), and `cardDirs` is the list of parent directories
of the glob matches of `<base>/card*/gt_boost_freq_mhz`, in enumeration order.
Every attempted device write is recorded, in order, in a `List DevWrite`
trace.  Mutex lock acquisition is modelled as always succeeding (lock
poisoning only arises from a panic in another thread, outside this model),
so the `Err(_) => bail!` arms of the source are unreachable here.
-/

/-- The `GameMode` enum of common.rs (variants `Off = 0`, `Borealis = 1`). -/
inductive GameMode : Type
  | Off
  | Borealis
deriving DecidableEq, Repr

/-- The `RTCAudioActive` enum of common.rs (`Inactive = 0`, `Active = 1`). -/
inductive RTCAudioActive : Type
  | Inactive
  | Active
deriving DecidableEq, Repr

/-- The `FullscreenVideo` enum of common.rs (`Inactive = 0`, `Active = 1`). -/
inductive FullscreenVideo : Type
  | Inactive
  | Active
deriving DecidableEq, Repr

/-- Error taxonomy of the daemon core: `deviceIO` stands for the anyhow /
io::Error failures of sysfs writes, `invalidArgument` for rejected request
byte values. -/
inductive RError : Type
  | deviceIO
  | invalidArgument
deriving DecidableEq, Repr

/-- The three global state cells `GAME_MODE`, `RTC_AUDIO_ACTIVE`,
`FULLSCREEN_VIDEO` of common.rs, gathered in one record. -/
structure DaemonState : Type where
  game_mode : GameMode
  rtc_audio_active : RTCAudioActive
  fullscreen_video : FullscreenVideo
deriving DecidableEq, Repr

/-- The initial values of the three `Lazy<Mutex<_>>` cells: `GameMode::Off`,
`RTCAudioActive::Inactive`, `FullscreenVideo::Inactive`. -/
def initial_state : DaemonState :=
  ⟨GameMode.Off, RTCAudioActive.Inactive, FullscreenVideo.Inactive⟩

/-- One attempted device-file write (`std::fs::write`), tagged by which sysfs
family it targets: an EPP policy file or a `gt_boost_freq_mhz` file. -/
inductive DevWrite : Type
  | epp (path value : String)
  | gtBoost (path value : String)
deriving DecidableEq, Repr

/-- The filesystem surface the daemon touches, per the module doc above. -/
structure Device : Type where
  eppPaths : List String
  writeOk : String → String → Bool
  files : String → Option String
  cardDirs : List String

/-- Outcome of one request handler call: the `Result` returned to the caller,
the state of the three cells afterwards, and the ordered trace of attempted
device writes. -/
structure CallResult : Type where
  result : Except RError Unit
  state : DaemonState
  trace : List DevWrite
deriving Repr

/-- Numeric encoding of `GameMode` (the Rust `game_mode as u8`). -/
def GameMode.encode : GameMode → Nat
  | GameMode.Off => 0
  | GameMode.Borealis => 1

/-- Numeric encoding of `RTCAudioActive` (its discriminant values). -/
def RTCAudioActive.encode : RTCAudioActive → Nat
  | RTCAudioActive.Inactive => 0
  | RTCAudioActive.Active => 1

/-- Numeric encoding of `FullscreenVideo` (its discriminant values). -/
def FullscreenVideo.encode : FullscreenVideo → Nat
  | FullscreenVideo.Inactive => 0
  | FullscreenVideo.Active => 1

/-- common.rs lines 37-47, `impl TryFrom<u8> for GameMode`. -/
def GameMode.tryFrom : Nat → Except RError GameMode
  | 0 => Except.ok GameMode.Off
  | 1 => Except.ok GameMode.Borealis
  | _ => Except.error RError.invalidArgument

/-- common.rs lines 86-96, `impl TryFrom<u8> for RTCAudioActive`. -/
def RTCAudioActive.tryFrom : Nat → Except RError RTCAudioActive
  | 0 => Except.ok RTCAudioActive.Inactive
  | 1 => Except.ok RTCAudioActive.Active
  | _ => Except.error RError.invalidArgument

/-- common.rs lines 108-118, `impl TryFrom<u8> for FullscreenVideo`. -/
def FullscreenVideo.tryFrom : Nat → Except RError FullscreenVideo
  | 0 => Except.ok FullscreenVideo.Inactive
  | 1 => Except.ok FullscreenVideo.Active
  | _ => Except.error RError.invalidArgument

/-- The loop body of `set_epp` (common.rs lines 127-129): write `value` to
each glob match in order, failing fast on the first failed write.  The trace
records every attempted write, including the failing one. -/
def set_epp_go (dev : Device) (value : String) :
    List String → Except RError Unit × List DevWrite
  | [] => (Except.ok (), [])
  | p :: ps =>
    if dev.writeOk p value then
      let rest := set_epp_go dev value ps
      (rest.1, DevWrite.epp p value :: rest.2)
    else
      (Except.error RError.deviceIO, [DevWrite.epp p value])

/-- common.rs lines 123-132, `set_epp`: writes `value` to every match of the
EPP glob pattern. -/
def set_epp (dev : Device) (value : String) : Except RError Unit × List DevWrite :=
  set_epp_go dev value dev.eppPaths

/-- common.rs lines 134-153, `update_epp_if_needed`: reads both the
`RTC_AUDIO_ACTIVE` and `FULLSCREEN_VIDEO` cells (both locks held together)
and applies the EPP decision, reproducing the source `if` / `else if`
structure literally. -/
def update_epp_if_needed (dev : Device) (st : DaemonState) :
    Except RError Unit × List DevWrite :=
  if st.rtc_audio_active = RTCAudioActive.Active
      ∨ st.fullscreen_video = FullscreenVideo.Active then
    set_epp dev "179"
  else if st.rtc_audio_active ≠ RTCAudioActive.Active
      ∧ st.fullscreen_video ≠ FullscreenVideo.Active then
    set_epp dev "balance_performance"
  else
    (Except.ok (), [])

/-- The spec's Policy Engine decision function `select_epp` (spec section
4.2), stated from the spec's words for comparison with
`update_epp_if_needed`: the boosted value "179" when either input is Active,
otherwise "balance_performance". -/
def select_epp (rtc : RTCAudioActive) (fsv : FullscreenVideo) : String :=
  if rtc = RTCAudioActive.Active ∨ fsv = FullscreenVideo.Active then "179"
  else "balance_performance"

/-- The card-directory discovery loop of `set_gt_boost_freq_mhz` (common.rs
lines 213-222): `card` starts as "/" and is reassigned to the parent of each
glob match in turn, so the last enumerated match wins. -/
def resolve_card (dev : Device) : String :=
  dev.cardDirs.foldl (fun _ d => d) "/"

/-- common.rs lines 199-202, `read_gt_sysfs`: read
`<gt_base_path>/<gt_sysfs_file>` to a string. -/
def read_gt_sysfs (dev : Device) (gt_base_path gt_sysfs_file : String) :
    Option String :=
  dev.files (gt_base_path ++ "/" ++ gt_sysfs_file)

/-- The boost value selected by `set_gt_boost_freq_mhz` (common.rs lines
224-236): min frequency when Active, max otherwise, and on a failed read the
human-readable sentinel string is substituted. -/
def gt_boost_value (dev : Device) (mode : RTCAudioActive) : String :=
  if mode = RTCAudioActive.Active then
    match read_gt_sysfs dev (resolve_card dev) "gt_min_freq_mhz" with
    | some s => s
    | none => "gt boost fail to read sysfs min freq"
  else
    match read_gt_sysfs dev (resolve_card dev) "gt_max_freq_mhz" with
    | some s => s
    | none => "gt boost fail to read sysfs max freq"

/-- common.rs lines 204-240, `set_gt_boost_freq_mhz`: discover the card
directory, select the boost value, and write it to
`<card>/gt_boost_freq_mhz`, returning the io::Result of that write. -/
def set_gt_boost_freq_mhz (dev : Device) (mode : RTCAudioActive) :
    Except RError Unit × List DevWrite :=
  let full_gt_boost_path := resolve_card dev ++ "/" ++ "gt_boost_freq_mhz"
  ((if dev.writeOk full_gt_boost_path (gt_boost_value dev mode) then Except.ok ()
    else Except.error RError.deviceIO),
   [DevWrite.gtBoost full_gt_boost_path (gt_boost_value dev mode)])

/-- The EPP value chosen inline by `set_rtc_audio_active` (common.rs lines
160-164), a function of the `mode` argument alone. -/
def rtc_epp_value (mode : RTCAudioActive) : String :=
  if mode = RTCAudioActive.Active then "179" else "balance_performance"

/-- common.rs lines 155-172, `set_rtc_audio_active`: commit `mode` to the
cell, then (still under the lock) write the mode-derived EPP value and update
the GT boost frequency, then (after the lock) run `update_epp_if_needed`; any
failure propagates with `?`. -/
def set_rtc_audio_active (dev : Device) (st : DaemonState)
    (mode : RTCAudioActive) : CallResult :=
  let st' := { st with rtc_audio_active := mode }
  let e1 := set_epp dev (rtc_epp_value mode)
  match e1.1 with
  | Except.error e => ⟨Except.error e, st', e1.2⟩
  | Except.ok _ =>
    let g := set_gt_boost_freq_mhz dev mode
    match g.1 with
    | Except.error e => ⟨Except.error e, st', e1.2 ++ g.2⟩
    | Except.ok _ =>
      let u := update_epp_if_needed dev st'
      ⟨u.1, st', e1.2 ++ g.2 ++ u.2⟩

/-- common.rs lines 174-179, `get_rtc_audio_active`. -/
def get_rtc_audio_active (st : DaemonState) : Except RError RTCAudioActive :=
  Except.ok st.rtc_audio_active

/-- common.rs lines 181-190, `set_fullscreen_video`: commit `mode` to the
cell, then run `update_epp_if_needed`, propagating its error. -/
def set_fullscreen_video (dev : Device) (st : DaemonState)
    (mode : FullscreenVideo) : CallResult :=
  let st' := { st with fullscreen_video := mode }
  let u := update_epp_if_needed dev st'
  ⟨u.1, st', u.2⟩

/-- common.rs lines 192-197, `get_fullscreen_video`. -/
def get_fullscreen_video (st : DaemonState) : Except RError FullscreenVideo :=
  Except.ok st.fullscreen_video

/-- common.rs lines 51-59, `set_game_mode`: store `mode` in the `GAME_MODE`
cell; no device I/O and no policy re-evaluation.  The `Device` argument and
write trace are part of the common handler signature so that the absence of
writes is a stated fact, not a typing accident. -/
def set_game_mode (dev : Device) (st : DaemonState) (mode : GameMode) :
    CallResult :=
  ⟨Except.ok (), { st with game_mode := mode }, []⟩

/-- common.rs lines 61-66, `get_game_mode`. -/
def get_game_mode (st : DaemonState) : Except RError GameMode :=
  Except.ok st.game_mode

/-- dbus.rs lines 50-60, the `SetGameMode` method handler: byte 0 maps to
`Off`, 1 to `Borealis`, anything else is rejected before the store is
touched. -/
def dbus_set_game_mode (dev : Device) (st : DaemonState) (raw : Nat) :
    CallResult :=
  match raw with
  | 0 => set_game_mode dev st GameMode.Off
  | 1 => set_game_mode dev st GameMode.Borealis
  | _ => ⟨Except.error RError.invalidArgument, st, []⟩

/-- dbus.rs lines 43-48, the `GetGameMode` method handler: returns
`game_mode as u8`. -/
def dbus_get_game_mode (st : DaemonState) : Except RError Nat :=
  match get_game_mode st with
  | Except.ok m => Except.ok m.encode
  | Except.error e => Except.error e

/-- A device on which every write succeeds, every read returns "300", there
is a single EPP policy file and a single DRM card. -/
def dev_ok : Device :=
  { eppPaths := ["/sys/devices/system/cpu/cpufreq/policy0/energy_performance_preference"]
    writeOk := fun _ _ => true
    files := fun _ => some "300"
    cardDirs := ["/sys/class/drm/card0"] }

/-- A device on which every write fails. -/
def dev_fail : Device :=
  { eppPaths := ["/sys/devices/system/cpu/cpufreq/policy0/energy_performance_preference"]
    writeOk := fun _ _ => false
    files := fun _ => some "300"
    cardDirs := ["/sys/class/drm/card0"] }

/-- A state in which fullscreen video is active and RTC audio is not. -/
def st_fsv : DaemonState :=
  ⟨GameMode.Off, RTCAudioActive.Inactive, FullscreenVideo.Active⟩

/-- Every write recorded by `set_epp_go` targets the value being applied. -/
theorem set_epp_go_mem (dev : Device) (value : String) :
    ∀ (ps : List String) (w : DevWrite), w ∈ (set_epp_go dev value ps).2 →
      ∃ p, w = DevWrite.epp p value := by
  intro ps
  induction ps with
  | nil => intro w h; simp [set_epp_go] at h
  | cons p ps ih =>
    intro w h
    by_cases hw : dev.writeOk p value
    · simp [set_epp_go, hw] at h
      rcases h with h | h
      · exact ⟨p, h⟩
      · exact ih w h
    · simp [set_epp_go, hw] at h
      exact ⟨p, h⟩

/-- Every write recorded by `set_epp` targets the value being applied. -/
theorem set_epp_mem (dev : Device) (value : String) (w : DevWrite)
    (h : w ∈ (set_epp dev value).2) : ∃ p, w = DevWrite.epp p value :=
  set_epp_go_mem dev value dev.eppPaths w h

/-- The source `if` / `else if` of `update_epp_if_needed` is exhaustive and
equals a single application of the spec's `select_epp` decision. -/
theorem update_epp_eq_select (dev : Device) (st : DaemonState) :
    update_epp_if_needed dev st =
      set_epp dev (select_epp st.rtc_audio_active st.fullscreen_video) := by
  rcases st with ⟨g, r, v⟩
  cases r <;> cases v <;> simp [update_epp_if_needed, select_epp]

/-- Folding the reassignment loop over the glob matches keeps the last one. -/
theorem foldl_const_getLastD (l : List String) :
    ∀ init : String, l.foldl (fun _ d => d) init = l.getLastD init := by
  induction l with
  | nil => intro init; rfl
  | cons a t ih =>
    intro init
    rw [List.foldl_cons, List.getLastD_cons]
    exact ih a

/-- The state cell written by `set_rtc_audio_active` is committed regardless
of how the device writes turn out. -/
theorem set_rtc_audio_active_state (dev : Device) (st : DaemonState)
    (mode : RTCAudioActive) :
    (set_rtc_audio_active dev st mode).state = { st with rtc_audio_active := mode } := by
  simp only [set_rtc_audio_active]
  split
  · rfl
  · split
    · rfl
    · rfl

/-- C3: for all four combinations of the two cells, the re-evaluation applies
exactly one EPP value, "179" iff at least one cell is Active and
"balance_performance" otherwise; the redundant `else if` guard never leaves a
third, write-free branch. -/
theorem update_epp_selects_single_value (dev : Device) (st : DaemonState) :
    update_epp_if_needed dev st =
      set_epp dev (select_epp st.rtc_audio_active st.fullscreen_video) ∧
    (select_epp st.rtc_audio_active st.fullscreen_video = "179" ↔
      (st.rtc_audio_active = RTCAudioActive.Active ∨
       st.fullscreen_video = FullscreenVideo.Active)) ∧
    (select_epp st.rtc_audio_active st.fullscreen_video = "balance_performance" ↔
      ¬(st.rtc_audio_active = RTCAudioActive.Active ∨
        st.fullscreen_video = FullscreenVideo.Active)) := by
  refine ⟨update_epp_eq_select dev st, ?_, ?_⟩ <;>
    rcases st with ⟨g, r, v⟩ <;> cases r <;> cases v <;> simp [select_epp]

/-- Witness for `update_epp_selects_single_value` at a concrete state. -/
theorem update_epp_selects_single_value_witness :
    select_epp st_fsv.rtc_audio_active st_fsv.fullscreen_video = "179" ↔
      (st_fsv.rtc_audio_active = RTCAudioActive.Active ∨
       st_fsv.fullscreen_video = FullscreenVideo.Active) :=
  (update_epp_selects_single_value dev_ok st_fsv).2.1

/-- C9: `set_game_mode` succeeds, performs no device writes, changes only the
GameMode cell, and all three getters return the current value of their cell
without touching the state. -/
theorem set_game_mode_frame (dev : Device) (st : DaemonState) (mode : GameMode) :
    (set_game_mode dev st mode).result = Except.ok () ∧
    (set_game_mode dev st mode).trace = [] ∧
    (set_game_mode dev st mode).state.game_mode = mode ∧
    (set_game_mode dev st mode).state.rtc_audio_active = st.rtc_audio_active ∧
    (set_game_mode dev st mode).state.fullscreen_video = st.fullscreen_video ∧
    get_game_mode st = Except.ok st.game_mode ∧
    get_rtc_audio_active st = Except.ok st.rtc_audio_active ∧
    get_fullscreen_video st = Except.ok st.fullscreen_video :=
  ⟨rfl, rfl, rfl, rfl, rfl, rfl, rfl, rfl⟩

/-- C10: for each of the three mode enums, TryFrom of a variant's encoding
returns that variant, and TryFrom succeeds exactly on the bytes 0 and 1. -/
theorem tryFrom_roundtrip :
    (∀ m : GameMode, GameMode.tryFrom m.encode = Except.ok m) ∧
    (∀ raw : Nat, (∃ m, GameMode.tryFrom raw = Except.ok m) ↔ (raw = 0 ∨ raw = 1)) ∧
    (∀ a : RTCAudioActive, RTCAudioActive.tryFrom a.encode = Except.ok a) ∧
    (∀ raw : Nat, (∃ a, RTCAudioActive.tryFrom raw = Except.ok a) ↔ (raw = 0 ∨ raw = 1)) ∧
    (∀ v : FullscreenVideo, FullscreenVideo.tryFrom v.encode = Except.ok v) ∧
    (∀ raw : Nat, (∃ v, FullscreenVideo.tryFrom raw = Except.ok v) ↔ (raw = 0 ∨ raw = 1)) := by
  refine ⟨fun m => by cases m <;> rfl, fun raw => ?_,
          fun a => by cases a <;> rfl, fun raw => ?_,
          fun v => by cases v <;> rfl, fun raw => ?_⟩ <;>
    match raw with
    | 0 => simp [GameMode.tryFrom, RTCAudioActive.tryFrom, FullscreenVideo.tryFrom]
    | 1 => simp [GameMode.tryFrom, RTCAudioActive.tryFrom, FullscreenVideo.tryFrom]
    | (n+2) => simp [GameMode.tryFrom, RTCAudioActive.tryFrom, FullscreenVideo.tryFrom]

/-- Witness for `tryFrom_roundtrip` at concrete bytes. -/
theorem tryFrom_roundtrip_witness :
    GameMode.tryFrom 1 = Except.ok GameMode.Borealis ∧
    ((∃ a, RTCAudioActive.tryFrom 7 = Except.ok a) ↔ (7 = 0 ∨ 7 = 1)) :=
  ⟨tryFrom_roundtrip.1 GameMode.Borealis, tryFrom_roundtrip.2.2.2.1 7⟩

/-- A device whose reads all fail (writes still succeed). -/
def dev_noread : Device := { dev_ok with files := fun _ => none }

/-- When the inline EPP write of `set_rtc_audio_active` fails, the whole call
collapses to that error, with the mode already committed and only the EPP
writes attempted. -/
theorem set_rtc_audio_active_of_epp_error (dev : Device) (st : DaemonState)
    (mode : RTCAudioActive) (e : RError)
    (h : (set_epp dev (rtc_epp_value mode)).1 = Except.error e) :
    set_rtc_audio_active dev st mode =
      ⟨Except.error e, { st with rtc_audio_active := mode },
       (set_epp dev (rtc_epp_value mode)).2⟩ := by
  simp only [set_rtc_audio_active, h]

/-- Every write in the trace of `set_rtc_audio_active` comes from one of its
three device interactions. -/
theorem set_rtc_audio_active_trace_mem (dev : Device) (st : DaemonState)
    (mode : RTCAudioActive) (w : DevWrite)
    (h : w ∈ (set_rtc_audio_active dev st mode).trace) :
    w ∈ (set_epp dev (rtc_epp_value mode)).2 ∨
    w ∈ (set_gt_boost_freq_mhz dev mode).2 ∨
    w ∈ (update_epp_if_needed dev { st with rtc_audio_active := mode }).2 := by
  simp only [set_rtc_audio_active] at h
  split at h
  · exact Or.inl h
  · split at h
    · rcases List.mem_append.mp h with h | h
      · exact Or.inl h
      · exact Or.inr (Or.inl h)
    · rcases List.mem_append.mp h with h | h
      · rcases List.mem_append.mp h with h | h
        · exact Or.inl h
        · exact Or.inr (Or.inl h)
      · exact Or.inr (Or.inr h)

/-- C1 counterexample: with fullscreen video Active, a successful
`set_rtc_audio_active(Inactive)` writes the EPP value "balance_performance",
derived from the mode argument alone, although the pure function of the two
current cells selects "179". -/
theorem epp_pure_function_counterexample :
    (set_rtc_audio_active dev_ok st_fsv RTCAudioActive.Inactive).result = Except.ok () ∧
    DevWrite.epp "/sys/devices/system/cpu/cpufreq/policy0/energy_performance_preference"
        "balance_performance"
      ∈ (set_rtc_audio_active dev_ok st_fsv RTCAudioActive.Inactive).trace ∧
    select_epp (set_rtc_audio_active dev_ok st_fsv RTCAudioActive.Inactive).state.rtc_audio_active
        (set_rtc_audio_active dev_ok st_fsv RTCAudioActive.Inactive).state.fullscreen_video
      = "179" ∧
    ("balance_performance" : String) ≠ "179" := by
  refine ⟨rfl, by decide, rfl, by decide⟩

/-- C1 amended: every EPP value written by `set_fullscreen_video` is the pure
function `select_epp` of the two current cells; `set_rtc_audio_active` also
achieves `select_epp` through its final re-evaluation, but each of its EPP
writes may instead carry the value derived from the mode argument alone. -/
theorem epp_write_values_amended :
    (∀ (dev : Device) (st : DaemonState) (mode : FullscreenVideo) (p v : String),
        DevWrite.epp p v ∈ (set_fullscreen_video dev st mode).trace →
        v = select_epp (set_fullscreen_video dev st mode).state.rtc_audio_active
              (set_fullscreen_video dev st mode).state.fullscreen_video) ∧
    (∀ (dev : Device) (st : DaemonState) (mode : RTCAudioActive) (p v : String),
        DevWrite.epp p v ∈ (set_rtc_audio_active dev st mode).trace →
        v = rtc_epp_value mode ∨
        v = select_epp (set_rtc_audio_active dev st mode).state.rtc_audio_active
              (set_rtc_audio_active dev st mode).state.fullscreen_video) := by
  constructor
  · intro dev st mode p v h
    have ht : (set_fullscreen_video dev st mode).trace
        = (set_epp dev (select_epp st.rtc_audio_active mode)).2 := by
      show (update_epp_if_needed dev { st with fullscreen_video := mode }).2 = _
      rw [update_epp_eq_select]
    rw [ht] at h
    rcases set_epp_mem _ _ _ h with ⟨p', hp⟩
    injection hp with h1 h2
  · intro dev st mode p v h
    rw [set_rtc_audio_active_state]
    rcases set_rtc_audio_active_trace_mem dev st mode _ h with h | h | h
    · rcases set_epp_mem _ _ _ h with ⟨p', hp⟩
      injection hp with h1 h2
      exact Or.inl h2
    · simp [set_gt_boost_freq_mhz] at h
    · rw [update_epp_eq_select] at h
      rcases set_epp_mem _ _ _ h with ⟨p', hp⟩
      injection hp with h1 h2
      exact Or.inr h2

/-- Witness for `epp_write_values_amended` at the counterexample input. -/
theorem epp_write_values_amended_witness :
    ("balance_performance" : String) = rtc_epp_value RTCAudioActive.Inactive ∨
    "balance_performance" =
      select_epp
        (set_rtc_audio_active dev_ok st_fsv RTCAudioActive.Inactive).state.rtc_audio_active
        (set_rtc_audio_active dev_ok st_fsv RTCAudioActive.Inactive).state.fullscreen_video :=
  epp_write_values_amended.2 dev_ok st_fsv RTCAudioActive.Inactive
    "/sys/devices/system/cpu/cpufreq/policy0/energy_performance_preference"
    "balance_performance" (by decide)

/-- C2: with the min-frequency read failing and mode Active, the source
`set_gt_boost_freq_mhz` still writes, and the value written to
`gt_boost_freq_mhz` is the human-readable sentinel string; the call then
reports success. -/
theorem gt_boost_sentinel_write_eval :
    set_gt_boost_freq_mhz dev_noread RTCAudioActive.Active =
      (Except.ok (),
       [DevWrite.gtBoost "/sys/class/drm/card0/gt_boost_freq_mhz"
          "gt boost fail to read sysfs min freq"]) := rfl

/-- C4 counterexample: a failing EPP device write makes
`set_rtc_audio_active(Active)` return an error, yet the RTCAudioActive cell
has changed from its prior value Inactive to Active. -/
theorem set_error_state_unchanged_counterexample :
    (set_rtc_audio_active dev_fail initial_state RTCAudioActive.Active).result =
      Except.error RError.deviceIO ∧
    initial_state.rtc_audio_active = RTCAudioActive.Inactive ∧
    get_rtc_audio_active
        (set_rtc_audio_active dev_fail initial_state RTCAudioActive.Active).state =
      Except.ok RTCAudioActive.Active :=
  ⟨rfl, rfl, rfl⟩

/-- C4 amended: a failed `SetGameMode` request leaves the state unchanged,
but a failed `set_rtc_audio_active` or `set_fullscreen_video` already has the
new mode value committed to its cell (with the other two cells unchanged)
when the error is returned. -/
theorem set_error_state_amended :
    (∀ (dev : Device) (st : DaemonState) (raw : Nat) (e : RError),
        (dbus_set_game_mode dev st raw).result = Except.error e →
        (dbus_set_game_mode dev st raw).state = st) ∧
    (∀ (dev : Device) (st : DaemonState) (mode : RTCAudioActive) (e : RError),
        (set_rtc_audio_active dev st mode).result = Except.error e →
        (set_rtc_audio_active dev st mode).state = { st with rtc_audio_active := mode }) ∧
    (∀ (dev : Device) (st : DaemonState) (mode : FullscreenVideo) (e : RError),
        (set_fullscreen_video dev st mode).result = Except.error e →
        (set_fullscreen_video dev st mode).state = { st with fullscreen_video := mode }) := by
  refine ⟨fun dev st raw e h => ?_,
          fun dev st mode e h => set_rtc_audio_active_state dev st mode,
          fun dev st mode e h => rfl⟩
  match raw with
  | 0 => exact absurd h (by simp [dbus_set_game_mode, set_game_mode])
  | 1 => exact absurd h (by simp [dbus_set_game_mode, set_game_mode])
  | (n+2) => rfl

/-- Witness for `set_error_state_amended` at concrete failing calls. -/
theorem set_error_state_amended_witness :
    (dbus_set_game_mode dev_ok initial_state 7).state = initial_state ∧
    (set_rtc_audio_active dev_fail initial_state RTCAudioActive.Active).state =
      { initial_state with rtc_audio_active := RTCAudioActive.Active } :=
  ⟨set_error_state_amended.1 dev_ok initial_state 7 RError.invalidArgument rfl,
   set_error_state_amended.2.1 dev_fail initial_state RTCAudioActive.Active
     RError.deviceIO rfl⟩

/-- C5: when the EPP device write inside `set_rtc_audio_active` fails, the
call returns that error, and `get_rtc_audio_active` afterwards returns the
new mode passed to the failed set: the state write is committed before the
device write is attempted. -/
theorem rtc_set_commits_before_device_write (dev : Device) (st : DaemonState)
    (mode : RTCAudioActive) (e : RError)
    (h : (set_epp dev (rtc_epp_value mode)).1 = Except.error e) :
    (set_rtc_audio_active dev st mode).result = Except.error e ∧
    get_rtc_audio_active (set_rtc_audio_active dev st mode).state =
      Except.ok mode := by
  rw [set_rtc_audio_active_of_epp_error dev st mode e h]
  exact ⟨rfl, rfl⟩

/-- Witness for `rtc_set_commits_before_device_write` on a device whose
writes all fail. -/
theorem rtc_set_commits_before_device_write_witness :
    (set_rtc_audio_active dev_fail initial_state RTCAudioActive.Active).result =
      Except.error RError.deviceIO ∧
    get_rtc_audio_active
        (set_rtc_audio_active dev_fail initial_state RTCAudioActive.Active).state =
      Except.ok RTCAudioActive.Active :=
  rtc_set_commits_before_device_write dev_fail initial_state RTCAudioActive.Active
    RError.deviceIO rfl

/-- C6: bytes 0 and 1 make `SetGameMode` succeed and `GetGameMode` echo the
same encoding; any other byte is rejected with an invalid-argument error and
the stored game mode is unchanged. -/
theorem game_mode_roundtrip (dev : Device) (st : DaemonState) (raw : Nat) :
    (raw = 0 ∨ raw = 1 →
      (dbus_set_game_mode dev st raw).result = Except.ok () ∧
      dbus_get_game_mode (dbus_set_game_mode dev st raw).state = Except.ok raw) ∧
    (raw ≠ 0 → raw ≠ 1 →
      (dbus_set_game_mode dev st raw).result = Except.error RError.invalidArgument ∧
      (dbus_set_game_mode dev st raw).state.game_mode = st.game_mode) := by
  constructor
  · rintro (rfl | rfl) <;> exact ⟨rfl, rfl⟩
  · intro h0 h1
    match raw with
    | 0 => exact absurd rfl h0
    | 1 => exact absurd rfl h1
    | (n+2) => exact ⟨rfl, rfl⟩

/-- Witness for `game_mode_roundtrip` at the bytes 1 and 7. -/
theorem game_mode_roundtrip_witness :
    dbus_get_game_mode (dbus_set_game_mode dev_ok initial_state 1).state =
      Except.ok 1 ∧
    (dbus_set_game_mode dev_ok initial_state 7).result =
      Except.error RError.invalidArgument :=
  ⟨((game_mode_roundtrip dev_ok initial_state 1).1 (Or.inr rfl)).2,
   ((game_mode_roundtrip dev_ok initial_state 7).2 (by decide) (by decide)).1⟩

/-- C7: when the EPP application inside `set_rtc_audio_active` fails, the
error is propagated to the caller and no `gt_boost_freq_mhz` write is
attempted anywhere in that call. -/
theorem epp_failure_skips_gt_boost (dev : Device) (st : DaemonState)
    (mode : RTCAudioActive) (e : RError)
    (h : (set_epp dev (rtc_epp_value mode)).1 = Except.error e) :
    (set_rtc_audio_active dev st mode).result = Except.error e ∧
    ∀ p v, DevWrite.gtBoost p v ∉ (set_rtc_audio_active dev st mode).trace := by
  rw [set_rtc_audio_active_of_epp_error dev st mode e h]
  refine ⟨rfl, fun p v hm => ?_⟩
  rcases set_epp_mem _ _ _ hm with ⟨p', hp⟩
  exact DevWrite.noConfusion hp

/-- Witness for `epp_failure_skips_gt_boost` on a device whose writes all
fail. -/
theorem epp_failure_skips_gt_boost_witness :
    (set_rtc_audio_active dev_fail initial_state RTCAudioActive.Active).result =
      Except.error RError.deviceIO :=
  (epp_failure_skips_gt_boost dev_fail initial_state RTCAudioActive.Active
    RError.deviceIO rfl).1

/-- C8: the card directory resolved by `set_gt_boost_freq_mhz` is the last
enumerated glob match (appending a later match overrides any earlier one),
the single boost write of each call targets that directory, and the min/max
frequency reads feeding the boost value use the same directory.  The
resolution is a pure function of the device's current glob result, recomputed
by each call: nothing is carried over from one call to the next. -/
theorem gt_boost_card_last_match (dev : Device) (mode : RTCAudioActive) :
    resolve_card dev = dev.cardDirs.getLastD "/" ∧
    (∀ d : String, resolve_card { dev with cardDirs := dev.cardDirs ++ [d] } = d) ∧
    (set_gt_boost_freq_mhz dev mode).2 =
      [DevWrite.gtBoost (dev.cardDirs.getLastD "/" ++ "/" ++ "gt_boost_freq_mhz")
        (gt_boost_value dev mode)] ∧
    gt_boost_value dev mode =
      (if mode = RTCAudioActive.Active then
        match dev.files (dev.cardDirs.getLastD "/" ++ "/" ++ "gt_min_freq_mhz") with
        | some s => s
        | none => "gt boost fail to read sysfs min freq"
      else
        match dev.files (dev.cardDirs.getLastD "/" ++ "/" ++ "gt_max_freq_mhz") with
        | some s => s
        | none => "gt boost fail to read sysfs max freq") := by
  have hr : resolve_card dev = dev.cardDirs.getLastD "/" := foldl_const_getLastD _ _
  refine ⟨hr, fun d => ?_, ?_, ?_⟩
  · show List.foldl (fun _ d => d) "/" (dev.cardDirs ++ [d]) = d
    rw [List.foldl_append]
    rfl
  · simp only [set_gt_boost_freq_mhz, hr]
  · simp only [gt_boost_value, read_gt_sysfs, hr]
